import Mathlib

/-!
Verification of the weatherstation trend/prediction engine.

Shallow embedding of the core pure functions of the repository:
  * the trend analyzers and the daily summarizer of the standalone station
    (dht22_weather_station.py) and of the InfluxDB-backed dashboard
    (src/dashboard_masterbox.py, src/influxdb_data_service.py);
  * the derived-quantity calculators (heat index, wind chill, apparent
    temperature, feels-like dispatch, fog prediction);
  * the prediction engine predict_weather with its confidence aggregation.

Modelling conventions:
  * Python floats are embedded as rationals; the transcendental primitives
    math.log, math.sqrt, math.exp and the non-integer power x ** 0.16 are
    passed in as function parameters, so every definition stays computable
    and the claims (which are all about branch structure, thresholds and
    rational arithmetic) do not depend on the parameter values.
  * Python round(x, 1) is embedded as rounding x*10 to the nearest integer
    (half-up); none of the concrete values appearing in the theorems below
    sit on a rounding tie.
  * timestamps are rationals measured in minutes; timedelta(minutes=m) is
    the rational m and total_seconds()/3600.0 is division by 60.
  * code that can raise a Python exception (math domain errors, division
    by zero) returns Except Unit; a bare try/except around such code is
    embedded as pattern matching on the Except value.
-/

/-- One sensor reading: timestamp (minutes), temperature (F), relative
humidity (percent) and an optional pressure (hPa). -/
structure Reading where
  timestamp : ℚ
  temperature_f : ℚ
  humidity : ℚ
  pressure_hpa : Option ℚ
deriving DecidableEq

/-- Python round(x, 1): round to one decimal place (half-up; the values used
in the concrete theorems below are never ties, where Python would round
half-even). -/
def round1 (x : ℚ) : ℚ := (Rat.floor (x * 10 + 1/2) : ℚ) / 10

/-- max of a list of rationals, None on the empty list (Python max raises
there; callers below only use it under a non-emptiness guard or keep the
Option). -/
def list_max : List ℚ → Option ℚ
  | [] => none
  | x :: xs => some (xs.foldl max x)

/-- min of a list of rationals, None on the empty list. -/
def list_min : List ℚ → Option ℚ
  | [] => none
  | x :: xs => some (xs.foldl min x)

/-- Python truthiness of an optional float: None and 0.0 are falsy. -/
def pyTruthy (p : Option ℚ) : Bool := decide (p.getD 0 ≠ 0)

/-- Python `a or b` for an optional float a: b when a is None or 0.0. -/
def py_or (v : Option ℚ) (fb : ℚ) : ℚ :=
  match v with
  | none => fb
  | some x => if x = 0 then fb else x

/-- Result of a temperature or humidity trend analysis, carrying the raw
signed change that the source formats into the human string. -/
inductive Trend where
  | insufficient
  | risingRapidly (change : ℚ)
  | rising (change : ℚ)
  | fallingRapidly (change : ℚ)
  | falling (change : ℚ)
  | stable (change : ℚ)
deriving DecidableEq

/-- The shared 5-band classification used by the temperature and humidity
trend analyzers (thresholds hi and lo, e.g. 5/2 for temperature). -/
def changeBand (hi lo : ℚ) (change : ℚ) : Trend :=
  if change > hi then .risingRapidly change
  else if change > lo then .rising change
  else if change < -hi then .fallingRapidly change
  else if change < -lo then .falling change
  else .stable change

/-- get_temperature_trend of src/dashboard_masterbox.py: last minus first
reading of the window, thresholds plus-minus 2 and 5 degrees F. -/
def get_temperature_trend (recent_readings : List Reading) : Trend :=
  if recent_readings.length < 2 then .insufficient
  else
    match recent_readings.head?, recent_readings.getLast? with
    | some r0, some rl => changeBand 5 2 (rl.temperature_f - r0.temperature_f)
    | _, _ => .insufficient

/-- get_humidity_trend of src/dashboard_masterbox.py: last minus first
humidity, thresholds plus-minus 5 and 15 percent. -/
def get_humidity_trend (recent_readings : List Reading) : Trend :=
  if recent_readings.length < 2 then .insufficient
  else
    match recent_readings.head?, recent_readings.getLast? with
    | some r0, some rl => changeBand 15 5 (rl.humidity - r0.humidity)
    | _, _ => .insufficient

/-- Result of a pressure trend analysis.  The non-stable bands carry the
change and the hourly rate the source interpolates into the message; the
stable message of both implementations reports only the change. -/
inductive PTrend where
  | insufficientData
  | insufficientPressure
  | fallingRapidly (change rate : ℚ)
  | falling (change rate : ℚ)
  | risingRapidly (change rate : ℚ)
  | rising (change rate : ℚ)
  | stable (change : ℚ)
deriving DecidableEq

/-- The 5-band pressure classification (thresholds plus-minus 1 and 3 hPa on
the absolute change), common to both pressure trend implementations. -/
def pressureBand (change rate : ℚ) : PTrend :=
  if change < -3 then .fallingRapidly change rate
  else if change < -1 then .falling change rate
  else if change > 3 then .risingRapidly change rate
  else if change > 1 then .rising change rate
  else .stable change

/-- get_pressure_trend of src/dashboard_masterbox.py: raw last-minus-first
difference over the pressure-bearing readings of the window, rate over the
actual first-to-last time span (hours) floored at 0.1, threshold of only 2
pressure-bearing readings (the source comment reads "Reduced from 6 to 2"). -/
def get_pressure_trend_mb (recent_readings : List Reading) : PTrend :=
  let recent_with_pressure := recent_readings.filter (fun r => r.pressure_hpa.isSome)
  if recent_with_pressure.length < 2 then .insufficientPressure
  else
    match recent_with_pressure.head?, recent_with_pressure.getLast? with
    | some r0, some rl =>
      let pressure_change := rl.pressure_hpa.getD 0 - r0.pressure_hpa.getD 0
      let duration_hours := max ((rl.timestamp - r0.timestamp) / 60) (1/10)
      pressureBand pressure_change (pressure_change / duration_hours)
    | _, _ => .insufficientPressure

/-- The pressure-bearing readings of the lookback span used by the station
pressure trend: pressure present and timestamp strictly after now minus the
lookback. -/
def stationRecent (all_readings : List Reading) (now hours : ℚ) : List Reading :=
  all_readings.filter (fun r => r.pressure_hpa.isSome && decide (now - hours * 60 < r.timestamp))

/-- The 30-minute-wide windowed mean of dht22_weather_station.py: mean of the
pressures of the readings within 15 minutes of the center, None when the
window is empty. -/
def window_mean (readings : List Reading) (center : ℚ) : Option ℚ :=
  let vals := (readings.filter
      (fun r => decide (center - 15 ≤ r.timestamp) && decide (r.timestamp ≤ center + 15))).map
    (fun r => r.pressure_hpa.getD 0)
  if vals = [] then none else some (vals.sum / vals.length)

/-- get_pressure_trend of dht22_weather_station.py: two 30-minute windowed
means centered 15 minutes inside each end of the span of pressure-bearing
readings (falling back to the raw endpoint when a windowed mean is missing
or zero, the Python `or`), rate over the distance between the window centers
floored at 0.1 hour, and the shared 5-band classification. -/
def get_pressure_trend_station (all_readings : List Reading) (now hours : ℚ) : PTrend :=
  if all_readings.length < 2 then .insufficientData
  else
    let recent := stationRecent all_readings now hours
    if recent.length < 6 then .insufficientPressure
    else
      match recent.head?, recent.getLast? with
      | some r0, some rl =>
        let c0 := r0.timestamp + 15
        let c1 := rl.timestamp - 15
        let p0 := py_or (window_mean recent c0) (r0.pressure_hpa.getD 0)
        let p1 := py_or (window_mean recent c1) (rl.pressure_hpa.getD 0)
        let duration_hours := max ((c1 - c0) / 60) (1/10)
        let pressure_change := p1 - p0
        pressureBand pressure_change (pressure_change / duration_hours)
      | _, _ => .insufficientPressure

/-- Argument of the square root in the low-humidity heat-index correction:
(17 - abs(temp_f - 95)) / 17. -/
def heat_index_sqrt_arg (temp_f : ℚ) : ℚ := (17 - |temp_f - 95|) / 17

/-- heat_index of src/dashboard_masterbox.py and (identically)
_heat_index of src/influxdb_data_service.py: Rothfusz regression with the
dry (humidity < 13) and humid (humidity > 85) corrections; the square root
primitive is a parameter. -/
def heat_index (sqrtF : ℚ → ℚ) (temp_f humidity : ℚ) : ℚ :=
  if temp_f < 80 ∨ humidity < 40 then temp_f
  else
    let hi := -42.379 + 2.04901523 * temp_f + 10.14333127 * humidity
      - 0.22475541 * temp_f * humidity - 0.00683783 * temp_f ^ 2
      - 0.05481717 * humidity ^ 2 + 0.00122874 * temp_f ^ 2 * humidity
      + 0.00085282 * temp_f * humidity ^ 2 - 0.00000199 * temp_f ^ 2 * humidity ^ 2
    let hi2 :=
      if humidity < 13 ∧ 80 ≤ temp_f ∧ temp_f ≤ 112 then
        hi - ((13 - humidity) / 4) * sqrtF (heat_index_sqrt_arg temp_f)
      else if humidity > 85 ∧ 80 ≤ temp_f ∧ temp_f ≤ 87 then
        hi + ((humidity - 85) / 10) * ((87 - temp_f) / 5)
      else hi
    round1 hi2

/-- wind_chill of src/dashboard_masterbox.py; the non-integer power
wind_mph ** 0.16 is the parameter pow016F. -/
def wind_chill (pow016F : ℚ → ℚ) (temp_f wind_mph : ℚ) : ℚ :=
  if temp_f > 50 ∨ wind_mph < 3 then temp_f
  else
    round1 (35.74 + 0.6215 * temp_f - 35.75 * pow016F wind_mph
      + 0.4275 * temp_f * pow016F wind_mph)

/-- apparent_temperature of src/dashboard_masterbox.py; math.exp is the
parameter expF. -/
def apparent_temperature (expF : ℚ → ℚ) (temp_c humidity wind_ms : ℚ) : ℚ :=
  let e := (humidity / 100) * 6.105 * expF (17.27 * temp_c / (237.7 + temp_c))
  round1 ((temp_c + 0.33 * e - 0.7 * wind_ms - 4.0) * 9/5 + 32)

/-- calculate_feels_like of src/dashboard_masterbox.py and (identically)
_calculate_feels_like of src/influxdb_data_service.py: three-way dispatch,
heat-index regime tested first. -/
def calculate_feels_like (sqrtF pow016F expF : ℚ → ℚ) (temp_f humidity : ℚ)
    (wind_mph : ℚ := 0) : ℚ :=
  if temp_f ≥ 80 ∧ humidity ≥ 40 then heat_index sqrtF temp_f humidity
  else if temp_f ≤ 50 ∧ wind_mph ≥ 3 then wind_chill pow016F temp_f wind_mph
  else apparent_temperature expF ((temp_f - 32) * 5/9) humidity (wind_mph * 0.44704)

/-- The daily summary record: all fields the two summarizers may produce
(None models an absent dictionary key). -/
structure DailySummary where
  temp_high : Option ℚ
  temp_low : Option ℚ
  humidity_high : Option ℚ
  humidity_low : Option ℚ
  pressure_high : Option ℚ
  pressure_low : Option ℚ
  pressure_current : Option ℚ
  feels_like_high : Option ℚ
  feels_like_low : Option ℚ
  readings_count : ℕ
deriving DecidableEq

/-- The pressure values the station summarizer aggregates: present and
within the plausible range 800 to 1100 hPa (both inclusive in the source). -/
def station_pressures (today_readings : List Reading) : List ℚ :=
  today_readings.filterMap (fun r =>
    match r.pressure_hpa with
    | some p => if 800 ≤ p ∧ p ≤ 1100 then some p else none
    | none => none)

/-- get_daily_summary of dht22_weather_station.py, on the already
date-filtered window: None when empty; temperature and humidity ranges over
all readings; pressure fields only over the range-filtered pressures. -/
def get_daily_summary_station (today_readings : List Reading) : Option DailySummary :=
  match today_readings with
  | [] => none
  | _ =>
    let temps := today_readings.map (fun r => r.temperature_f)
    let humidities := today_readings.map (fun r => r.humidity)
    let pressures := station_pressures today_readings
    some {
      temp_high := list_max temps
      temp_low := list_min temps
      humidity_high := list_max humidities
      humidity_low := list_min humidities
      pressure_high := list_max pressures
      pressure_low := list_min pressures
      pressure_current := pressures.getLast?
      feels_like_high := none
      feels_like_low := none
      readings_count := today_readings.length }

/-- get_daily_summary of src/influxdb_data_service.py, on the day's query
result: None when empty; pressure fields over every present pressure (no
range filter in this implementation); feels-like range via the dispatch
formula with wind 0. -/
def get_daily_summary_influx (sqrtF pow016F expF : ℚ → ℚ)
    (readings : List Reading) : Option DailySummary :=
  match readings with
  | [] => none
  | _ =>
    let temps := readings.map (fun r => r.temperature_f)
    let humidities := readings.map (fun r => r.humidity)
    let pressures := readings.filterMap (fun r => r.pressure_hpa)
    let feels := readings.map (fun r =>
      calculate_feels_like sqrtF pow016F expF r.temperature_f r.humidity 0)
    some {
      temp_high := list_max temps
      temp_low := list_min temps
      humidity_high := list_max humidities
      humidity_low := list_min humidities
      pressure_high := list_max pressures
      pressure_low := list_min pressures
      pressure_current := pressures.getLast?
      feels_like_high := list_max feels
      feels_like_low := list_min feels
      readings_count := readings.length }

/-- The signal keys of the confidence_scores dictionary.  pressure_change
and dewpoint appear only in the routine weighting and are never produced by
any rule. -/
inductive SignalKey where
  | storm | rain | clouds | clear | fair
  | deteriorating | change | storm_clearing | clearing | improving
  | thunderstorm | snow | winter_mix | fog
  | heat_danger | heat_advisory | frost | fire
  | pressure_change | dewpoint
deriving DecidableEq

/-- The severe signal keys of the noisy-OR aggregation. -/
def isSevereKey (k : SignalKey) : Bool :=
  match k with
  | .storm | .thunderstorm | .deteriorating | .storm_clearing => true
  | _ => false

/-- The prediction messages of predict_weather and
detect_current_conditions, one constructor per distinct message; the
payload is the raw number the source interpolates into the string. -/
inductive Msg where
  | noData
  | heavyPrecip
  | lightPrecip
  | thunderstormLikelyNow
  | thunderstormPossibleSpread
  | thunderstormPossibleSpike
  | pressureVolatility
  | separator
  | majorStorm
  | intensifyingStorm
  | rainLikely
  | unsettled
  | cloudy
  | clearSkies
  | fairWeather
  | fallingRapidlyMsg (rate : ℚ)
  | fallingMsg (rate : ℚ)
  | stormClearing (rate : ℚ)
  | risingRapidlyMsg (rate : ℚ)
  | improvingMsg (rate : ℚ)
  | thunderstormForecast
  | snowLikely
  | wintryMix
  | fogMsg (probability : ℚ)
  | dangerousHeat (hi : ℚ)
  | heatAdvisory (hi : ℚ)
  | frostFreeze
  | patchyFrost
  | criticalFire
  | elevatedFire
  | highConfidence
  | moderateConfidence
  | lowConfidence
  | perfectComfort
  | oppressive
  | dangerouslyCold
  | normalConditions
  | stableConditions
deriving DecidableEq

/-- One pass of the loop separating severe from routine signals: severe keys
with confidence at least 75 go left, anything else with confidence at least
50 goes right, both as probabilities (confidence / 100), order preserved. -/
def split_signals : List (SignalKey × ℚ) → List ℚ × List ℚ
  | [] => ([], [])
  | (k, c) :: rest =>
    let sr := split_signals rest
    if isSevereKey k ∧ 75 ≤ c then (c / 100 :: sr.1, sr.2)
    else if 50 ≤ c then (sr.1, c / 100 :: sr.2)
    else sr

/-- The weight list of the routine branch, one entry per key of the whole
confidence_scores dictionary (weight 2 for pressure_change and dewpoint). -/
def routine_weights (scores : List (SignalKey × ℚ)) : List ℚ :=
  scores.map (fun p => if p.1 = .pressure_change ∨ p.1 = .dewpoint then 2 else 1)

/-- The confidence aggregation of predict_weather (noisy-OR with severity
floor): severe signals combine as 1 - prod (1 - p) with a floor of 75,
otherwise routine signals average with the (inert) weighting, otherwise 50. -/
def combined_confidence (scores : List (SignalKey × ℚ)) : ℚ :=
  let sr := split_signals scores
  if sr.1 ≠ [] then
    let severe_combined := 1 - (sr.1.map (fun p => 1 - p)).prod
    max (severe_combined * 100) 75
  else if sr.2 ≠ [] then
    let weights := (routine_weights scores).take sr.2.length
    let weighted_sum := (sr.2.zip weights).foldl (fun a p => a + p.1 * p.2) 0
    let weight_total := weights.sum
    if weight_total > 0 then (weighted_sum / weight_total) * 100 else 50
  else 50

/-- math.log as a fallible primitive: ValueError on a non-positive
argument, otherwise the (parametric) logarithm. -/
def py_log (logF : ℚ → ℚ) (x : ℚ) : Except Unit ℚ :=
  if x ≤ 0 then .error () else .ok (logF x)

/-- Python float division: ZeroDivisionError on a zero divisor. -/
def pyDiv (x y : ℚ) : Except Unit ℚ :=
  if y = 0 then .error () else .ok (x / y)

/-- try/except around a fallible float computation with a fallback value. -/
def pyTry (e : Except Unit ℚ) (fb : ℚ) : ℚ :=
  match e with
  | .ok v => v
  | .error _ => fb

/-- The Magnus dew point (degrees F) as computed inline in
detect_current_conditions, predict_fog and calculate_dew_point of
src/dashboard_masterbox.py: alpha = a t / (b + t) + log(h / 100),
Td = b alpha / (a - alpha), converted to Fahrenheit; fallible at h ≤ 0 and
at the two divisions. -/
def magnus_dew_point_f (logF : ℚ → ℚ) (temp_c humidity : ℚ) : Except Unit ℚ := do
  let lg ← py_log logF (humidity / 100)
  let t1 ← pyDiv (17.27 * temp_c) (237.7 + temp_c)
  let alpha := t1 + lg
  let dpc ← pyDiv (237.7 * alpha) (17.27 - alpha)
  .ok (dpc * 9/5 + 32)

/-- calculate_dew_point, the inner helper of predict_weather: returns -100
when humidity is non-positive (instead of raising), otherwise Magnus. -/
def calculate_dew_point (logF : ℚ → ℚ) (temp_c humidity : ℚ) : Except Unit ℚ :=
  if humidity ≤ 0 then .ok (-100)
  else magnus_dew_point_f logF temp_c humidity

/-- The current reading as a dictionary: each field may be missing
(dictionary .get with default 0 or None in the source). -/
structure CurrentData where
  temperature_f : Option ℚ
  humidity : Option ℚ
  pressure_hpa : Option ℚ
deriving DecidableEq

/-- The inputs of one predict_weather pass: the current reading (None for
an empty dictionary), the data-service windows it pulls on demand, and the
wall-clock hour and month used by the fog prediction. -/
structure WeatherCtx where
  current : Option CurrentData
  recent1h : List Reading
  recent10m : List Reading
  recent30m : List Reading
  recent6h : List Reading
  hour : ℕ
  month : ℕ

/-- First pressure of a pressure-bearing list (readings[0]["pressure_hpa"]). -/
def firstPressure (l : List Reading) : ℚ :=
  match l.head? with
  | some r => r.pressure_hpa.getD 0
  | none => 0

/-- Last pressure of a pressure-bearing list (readings[-1]["pressure_hpa"]). -/
def lastPressure (l : List Reading) : ℚ :=
  match l.getLast? with
  | some r => r.pressure_hpa.getD 0
  | none => 0

/-- The pressure change rate used by both detect_current_conditions and
predict_weather: last minus first pressure of the 1-hour window divided by
1.0, or 0 when pressure is falsy or fewer than 2 pressure readings exist. -/
def pressure_change_rate_of (pressure : Option ℚ) (recent1h : List Reading) : ℚ :=
  if pyTruthy pressure then
    let prs := recent1h.filter (fun r => r.pressure_hpa.isSome)
    if 2 ≤ prs.length then (lastPressure prs - firstPressure prs) / 1 else 0
  else 0

/-- detect_current_conditions of src/dashboard_masterbox.py: the
current-condition detectors (precipitation, thunderstorm, humidity spike,
pressure volatility); its dew-point computation is wrapped in try/except
with fallback (temp - 20, spread 20). -/
def detect_current_conditions (logF : ℚ → ℚ) (ctx : WeatherCtx) : List Msg :=
  match ctx.current with
  | none => []
  | some cd =>
    let temp_f := cd.temperature_f.getD 0
    let humidity := cd.humidity.getD 0
    let pressure := cd.pressure_hpa
    let temp_c := (temp_f - 32) * 5/9
    let dew : ℚ × ℚ := match magnus_dew_point_f logF temp_c humidity with
      | .ok d => (d, temp_f - d)
      | .error _ => (temp_f - 20, 20)
    let dew_point_f : ℚ := dew.1
    let temp_dew_spread : ℚ := dew.2
    let rate := pressure_change_rate_of pressure ctx.recent1h
    let humidity_sustained :=
      if 92 ≤ humidity then
        if 3 ≤ ctx.recent10m.length then
          decide (((ctx.recent10m.filter (fun r => 92 ≤ r.humidity)).length : ℚ)
            ≥ (ctx.recent10m.length : ℚ) * 0.7)
        else false
      else false
    let precip :=
      if 92 ≤ humidity ∧ (rate ≤ -1.5 ∨ humidity_sustained = true) then [Msg.heavyPrecip]
      else if humidity > 85 then [Msg.lightPrecip]
      else []
    let humidity_spike :=
      if 2 ≤ ctx.recent30m.length then
        decide ((8 : ℚ) ≤ (match ctx.recent30m.getLast? with
            | some r => r.humidity
            | none => (0 : ℚ))
          - (match ctx.recent30m.head? with
            | some r => r.humidity
            | none => (0 : ℚ)))
      else false
    let thunder :=
      if temp_f ≥ 82 ∧ dew_point_f ≥ 66 ∧ rate ≤ -1.5 then [Msg.thunderstormLikelyNow]
      else if temp_f ≥ 78 ∧ dew_point_f ≥ 70 ∧ temp_dew_spread ≤ 12 then
        [Msg.thunderstormPossibleSpread]
      else if temp_f ≥ 75 then
        if humidity_spike = true then [Msg.thunderstormPossibleSpike] else []
      else []
    let volatility :=
      if 3 ≤ ctx.recent30m.length then
        let pressure_values := ctx.recent30m.filterMap (fun r => r.pressure_hpa)
        if 3 ≤ pressure_values.length then
          if ((match pressure_values with
            | [] => 0
            | x :: xs => xs.foldl max x - xs.foldl min x) : ℚ) > 2
          then [Msg.pressureVolatility] else []
        else []
      else []
    precip ++ thunder ++ volatility

/-- The seasons of the fog climatology table. -/
inductive Season where
  | winter | spring | summer | fall
deriving DecidableEq

/-- The time-of-day bands of the fog climatology table. -/
inductive TimePeriod where
  | overnight | morning | midday | evening
deriving DecidableEq

/-- Season from month: winter Dec-Feb, spring Mar-May, summer Jun-Aug,
fall otherwise. -/
def seasonOf (month : ℕ) : Season :=
  if month = 12 ∨ month = 1 ∨ month = 2 then .winter
  else if month = 3 ∨ month = 4 ∨ month = 5 then .spring
  else if month = 6 ∨ month = 7 ∨ month = 8 then .summer
  else .fall

/-- Time band from hour: overnight 0-6, morning 6-10, midday 10-15,
evening otherwise. -/
def timePeriodOf (hour : ℕ) : TimePeriod :=
  if hour < 6 then .overnight
  else if hour < 10 then .morning
  else if hour < 15 then .midday
  else .evening

/-- FOG_SEASONAL_PROBABILITY of src/dashboard_masterbox.py: the seasonal
base-rate fractions for the Smyrna, GA climate. -/
def fogSeasonalProbability (s : Season) (t : TimePeriod) : ℚ :=
  match s, t with
  | .winter, .overnight => 0.25
  | .winter, .morning => 0.30
  | .winter, .midday => 0.02
  | .winter, .evening => 0.08
  | .spring, .overnight => 0.20
  | .spring, .morning => 0.25
  | .spring, .midday => 0.01
  | .spring, .evening => 0.05
  | .summer, .overnight => 0.15
  | .summer, .morning => 0.20
  | .summer, .midday => 0.001
  | .summer, .evening => 0.03
  | .fall, .overnight => 0.22
  | .fall, .morning => 0.28
  | .fall, .midday => 0.02
  | .fall, .evening => 0.07

/-- Whether a pressure trend result is the stable band (the source tests
the substring "Stable" of the formatted message). -/
def isStableP (t : PTrend) : Bool :=
  match t with
  | .stable _ => true
  | _ => false

/-- Whether a trend result is the rising-rapidly band (the source tests the
substrings "Rising" and "rapidly" of the formatted message). -/
def isRisingRapidlyT (t : Trend) : Bool :=
  match t with
  | .risingRapidly _ => true
  | _ => false

/-- The additive fog score of predict_fog, before the multiplicative
seasonal and time-of-day modifiers: dew-point spread, humidity thresholds,
stable high pressure, seasonal temperature bands (with the flat -30 summer
midday/evening penalty), a stable-pressure bonus and a recent-moisture
bonus. -/
def fog_raw_score (spread humidity : ℚ) (pressure : Option ℚ)
    (season : Season) (time_period : TimePeriod) (temp_f : ℚ)
    (pstable hrisrap : Bool) : ℚ :=
  (if spread ≤ 2 then 40 else if spread ≤ 4 then 20 else if spread ≤ 6 then 5 else 0)
  + (if humidity ≥ 95 then 30 else if humidity ≥ 90 then 15 else if humidity ≥ 85 then 5 else 0)
  + (if pyTruthy pressure = true ∧ 1015 ≤ pressure.getD 0 ∧ pressure.getD 0 ≤ 1025 then 10 else 0)
  + (if season = .summer then
      (if time_period = .morning ∧ 65 ≤ temp_f ∧ temp_f ≤ 75 then 15
       else if time_period = .midday ∨ time_period = .evening then -30 else 0)
     else (if 35 ≤ temp_f ∧ temp_f ≤ 55 then 10 else 0))
  + (if pstable = true then 5 else 0)
  + (if hrisrap = true then 10 else 0)

/-- Severity label of a fog prediction. -/
inductive FogSeverity where
  | veryLikely | likely | possible
deriving DecidableEq

/-- The fog prediction returned by predict_fog: the probability and the
severity label interpolated into its message. -/
structure FogPrediction where
  probability : ℚ
  severity : FogSeverity
deriving DecidableEq

/-- The final fog probability of predict_fog: the raw additive score is
multiplied by the seasonal base rate, multiplied again by 0.1 in summer
midday/evening, and capped at 95. -/
def fog_probability_of (spread humidity : ℚ) (pressure : Option ℚ)
    (season : Season) (time_period : TimePeriod) (temp_f : ℚ)
    (pstable hrisrap : Bool) : ℚ :=
  let scored := fog_raw_score spread humidity pressure season time_period temp_f pstable hrisrap
    * fogSeasonalProbability season time_period
  let scored2 := if season = .summer ∧ (time_period = .midday ∨ time_period = .evening)
    then scored * 0.1 else scored
  min scored2 95

/-- predict_fog of src/dashboard_masterbox.py.  The dew point is computed
with no guard and no try/except, so a non-positive humidity raises (the
error propagates through the explicit match); otherwise the capped
probability of fog_probability_of selects the severity band, and
probabilities below 20 are suppressed. -/
def predict_fog (logF : ℚ → ℚ) (current : Option CurrentData) (hour month : ℕ)
    (recent1h recent6h : List Reading) : Except Unit (Option FogPrediction) :=
  match current with
  | none => .ok none
  | some cd =>
    let temp_f := cd.temperature_f.getD 0
    let humidity := cd.humidity.getD 0
    let pressure := cd.pressure_hpa
    match magnus_dew_point_f logF ((temp_f - 32) * 5/9) humidity with
    | .error e => .error e
    | .ok dewpoint_f =>
      let fog_probability := fog_probability_of (temp_f - dewpoint_f) humidity pressure
        (seasonOf month) (timePeriodOf hour) temp_f
        (pyTruthy pressure && isStableP (get_pressure_trend_mb recent1h))
        (isRisingRapidlyT (get_humidity_trend recent6h))
      if fog_probability ≥ 70 then .ok (some ⟨fog_probability, .veryLikely⟩)
      else if fog_probability ≥ 40 then .ok (some ⟨fog_probability, .likely⟩)
      else if fog_probability ≥ 20 then .ok (some ⟨fog_probability, .possible⟩)
      else .ok none

/-- The ordered pressure-band forecast chain of predict_weather (first
match wins, no else branch), paired with the signal key and confidence each
branch records. -/
def pressure_band_rules (pressure humidity rate : ℚ) : List (Msg × SignalKey × ℚ) :=
  if pressure < 980 then [(.majorStorm, .storm, 95)]
  else if pressure < 995 ∧ rate < -2 then [(.intensifyingStorm, .storm, 85)]
  else if pressure < 1000 then [(.rainLikely, .rain, 75)]
  else if pressure < 1010 then
    (if humidity > 70 then [(.unsettled, .rain, 60)] else [(.cloudy, .clouds, 70)])
  else if pressure > 1030 then [(.clearSkies, .clear, 90)]
  else if pressure > 1020 then [(.fairWeather, .fair, 80)]
  else []

/-- The pressure-rate forecast chain of predict_weather, with the storm
clearing branch split on humidity. -/
def pressure_rate_rules (rate humidity : ℚ) : List (Msg × SignalKey × ℚ) :=
  if rate < -3 then [(.fallingRapidlyMsg rate, .deteriorating, 85)]
  else if rate < -1.5 then [(.fallingMsg rate, .change, 70)]
  else if rate > 2 then
    (if humidity > 80 then [(.stormClearing rate, .storm_clearing, 90)]
     else [(.risingRapidlyMsg rate, .clearing, 80)])
  else if rate > 1 then
    (if humidity > 75 then [(.improvingMsg rate, .improving, 75)] else [])
  else []

/-- The result of one predict_weather pass: the message list as returned,
plus (for testability) the confidence_scores dictionary and the final
aggregated confidence when the banner was produced. -/
structure PredictResult where
  messages : List Msg
  scores : List (SignalKey × ℚ)
  final : Option ℚ
deriving DecidableEq

/-- The forecast rule cascade of predict_weather after the current-condition
detectors: the pressure-dependent rules (band, rate, thunderstorm
instability, winter precipitation, in order, only when pressure is
present), then fog, heat, frost and fire.  Every entry pairs the appended
message with the signal key and confidence recorded alongside it. -/
def forecast_core (logF : ℚ → ℚ) (ctx : WeatherCtx) (cd : CurrentData)
    (fogp : Option FogPrediction) : List (Msg × SignalKey × ℚ) :=
  let temp_f := cd.temperature_f.getD 0
  let humidity := cd.humidity.getD 0
  let pressure := cd.pressure_hpa
  let dew_point_f := pyTry (calculate_dew_point logF ((temp_f - 32) * 5/9) humidity) (temp_f - 20)
  let rate := pressure_change_rate_of pressure ctx.recent1h
  let pressurePart : List (Msg × SignalKey × ℚ) :=
    match pressure with
    | some p =>
      pressure_band_rules p humidity rate
      ++ pressure_rate_rules rate humidity
      ++ (if temp_f > 75 ∧ humidity > 65 ∧ p < 1015 ∧ rate < -1 then
            (if (temp_f - dew_point_f) - 10 < 0 then [(.thunderstormForecast, .thunderstorm, 80)]
             else [])
          else [])
      ++ (if temp_f < 38 ∧ p < 1010 ∧ humidity > 70 then
            (if temp_f ≤ 32 then [(.snowLikely, .snow, 75)]
             else [(.wintryMix, .winter_mix, 65)])
          else [])
    | none => []
  let fogPart : List (Msg × SignalKey × ℚ) :=
    match fogp with
    | some fp => [(.fogMsg fp.probability, .fog, fp.probability)]
    | none => []
  let heatPart : List (Msg × SignalKey × ℚ) :=
    if temp_f > 80 then
      let hi := temp_f - (0.55 - 0.55 * humidity / 100) * (temp_f - 58)
      if hi > 105 then [(.dangerousHeat hi, .heat_danger, 95)]
      else if hi > 90 then [(.heatAdvisory hi, .heat_advisory, 85)]
      else []
    else []
  let frostPart : List (Msg × SignalKey × ℚ) :=
    if temp_f < 40 ∧ humidity > 70 ∧ pyTruthy pressure = true ∧ pressure.getD 0 > 1020 then
      (if temp_f ≤ 32 then [(.frostFreeze, .frost, 85)]
       else if temp_f ≤ 36 then [(.patchyFrost, .frost, 60)]
       else [])
    else []
  let firePart : List (Msg × SignalKey × ℚ) :=
    if humidity < 25 ∧ temp_f > 75 then
      (if humidity < 15 then [(.criticalFire, .fire, 90)]
       else [(.elevatedFire, .fire, 70)])
    else []
  pressurePart ++ fogPart ++ heatPart ++ frostPart ++ firePart

/-- The confidence banner message chosen from the final confidence. -/
def banner (fc : ℚ) : Msg :=
  if fc > 80 then Msg.highConfidence
  else if fc > 60 then Msg.moderateConfidence
  else Msg.lowConfidence

/-- The list-assembly tail of predict_weather: prediction messages are the
detector prefix plus the message of every fired forecast rule, the
confidence_scores dictionary collects the key/confidence of every fired
forecast rule, the banner is prepended when both are non-empty, and the
comfort line and (when nothing at all fired) the single fallback message
close the list. -/
def assemble (base : List Msg) (core : List (Msg × SignalKey × ℚ))
    (comfort : List Msg) (fallback : Msg) : PredictResult :=
  let preds := base ++ core.map (fun x => x.1)
  let scores := core.map (fun x => x.2)
  let final := if preds ≠ [] ∧ scores ≠ [] then some (combined_confidence scores) else none
  let preds2 := match final with
    | some fc => banner fc :: preds
    | none => preds
  let preds3 := preds2 ++ comfort
  let preds4 := if preds3 = [] then [fallback] else preds3
  ⟨preds4, scores, final⟩

/-- The comfort/caveat line of predict_weather. -/
def comfort_line (temp_f humidity : ℚ) (pressure : Option ℚ) : List Msg :=
  if 68 ≤ temp_f ∧ temp_f ≤ 77 ∧ 40 ≤ humidity ∧ humidity ≤ 60
      ∧ pyTruthy pressure = true ∧ 1013 ≤ pressure.getD 0 ∧ pressure.getD 0 ≤ 1023 then
    [Msg.perfectComfort]
  else if temp_f > 85 ∧ humidity > 70 then [Msg.oppressive]
  else if temp_f < 20 then [Msg.dangerouslyCold]
  else []

/-- One predict_weather pass once the fog prediction is known: detector
prefix with separator, forecast cascade, banner, comfort and fallback. -/
def predict_weather_core (logF : ℚ → ℚ) (ctx : WeatherCtx) (cd : CurrentData)
    (fogp : Option FogPrediction) : PredictResult :=
  let current_conditions := detect_current_conditions logF ctx
  let base := if current_conditions ≠ [] then current_conditions ++ [Msg.separator] else []
  let temp_f := cd.temperature_f.getD 0
  let humidity := cd.humidity.getD 0
  let pressure := cd.pressure_hpa
  assemble base (forecast_core logF ctx cd fogp) (comfort_line temp_f humidity pressure)
    (if pyTruthy pressure = true ∧ 1013 ≤ pressure.getD 0 ∧ pressure.getD 0 ≤ 1023 then
      Msg.normalConditions
     else Msg.stableConditions)

/-- predict_weather of src/dashboard_masterbox.py: the empty current
reading short-circuits to the single informational message; otherwise the
fog prediction is computed (it may raise, which propagates) and the pass is
assembled from the rule cascade. -/
def predict_weather (logF : ℚ → ℚ) (ctx : WeatherCtx) : Except Unit PredictResult :=
  match ctx.current with
  | none => .ok ⟨[.noData], [], none⟩
  | some cd =>
    match predict_fog logF ctx.current ctx.hour ctx.month ctx.recent1h ctx.recent6h with
    | .error e => .error e
    | .ok fogp => .ok (predict_weather_core logF ctx cd fogp)

/-- A concrete stand-in for the transcendental primitives, used by the
closed witness and counterexample evaluations; none of the facts proved at
it depend on its values. -/
def zeroFn : ℚ → ℚ := fun _ => 0

section SemiEval

attribute [local semireducible] Rat.mul Rat.add Rat.sub Rat.inv Rat.ofScientific

/-- Claim C10: heat_index is total; the square root of the low-humidity
correction is evaluated only under the guard humidity < 13 and
80 <= temp_f <= 112, and that guard makes its argument
(17 - abs (temp_f - 95)) / 17 non-negative, so no domain error can occur in
any branch. -/
theorem heat_index_sqrt_arg_nonneg (temp_f humidity : ℚ)
    (_hh : humidity < 13) (h80 : 80 ≤ temp_f) (h112 : temp_f ≤ 112) :
    0 ≤ heat_index_sqrt_arg temp_f := by
  have habs : |temp_f - 95| ≤ 17 := abs_le.mpr ⟨by linarith, by linarith⟩
  unfold heat_index_sqrt_arg
  exact div_nonneg (by linarith) (by norm_num)

/-- Witness for the C10 theorem at temp_f = 95, humidity = 0. -/
theorem heat_index_sqrt_arg_nonneg_witness :
    (0:ℚ) < 13 ∧ (80:ℚ) ≤ 95 ∧ (95:ℚ) ≤ 112 ∧ 0 ≤ heat_index_sqrt_arg 95 :=
  ⟨by norm_num, by norm_num, by norm_num,
    heat_index_sqrt_arg_nonneg 95 0 (by norm_num) (by norm_num) (by norm_num)⟩

lemma feels_like_eq_heat (sqrtF pow016F expF : ℚ → ℚ) (temp_f humidity wind_mph : ℚ)
    (h1 : temp_f ≥ 80) (h2 : humidity ≥ 40) :
    calculate_feels_like sqrtF pow016F expF temp_f humidity wind_mph
      = heat_index sqrtF temp_f humidity := by
  unfold calculate_feels_like
  rw [if_pos ⟨h1, h2⟩]

lemma feels_like_eq_wind (sqrtF pow016F expF : ℚ → ℚ) (temp_f humidity wind_mph : ℚ)
    (hno : ¬(temp_f ≥ 80 ∧ humidity ≥ 40)) (h1 : temp_f ≤ 50) (h2 : wind_mph ≥ 3) :
    calculate_feels_like sqrtF pow016F expF temp_f humidity wind_mph
      = wind_chill pow016F temp_f wind_mph := by
  unfold calculate_feels_like
  rw [if_neg hno, if_pos ⟨h1, h2⟩]

lemma feels_like_eq_apparent (sqrtF pow016F expF : ℚ → ℚ) (temp_f humidity wind_mph : ℚ)
    (hno1 : ¬(temp_f ≥ 80 ∧ humidity ≥ 40)) (hno2 : ¬(temp_f ≤ 50 ∧ wind_mph ≥ 3)) :
    calculate_feels_like sqrtF pow016F expF temp_f humidity wind_mph
      = apparent_temperature expF ((temp_f - 32) * 5/9) humidity (wind_mph * 0.44704) := by
  unfold calculate_feels_like
  rw [if_neg hno1, if_neg hno2]

/-- Claim C4: for all inputs, feelsLike returns the heat index exactly when
temp_f >= 80 and humidity >= 40; otherwise the wind chill exactly when
temp_f <= 50 and wind_mph >= 3; otherwise the apparent temperature applied
to the Celsius-converted temperature, the humidity and the wind speed
converted to m/s - with the heat-index predicate tested first. -/
theorem feels_like_dispatch (sqrtF pow016F expF : ℚ → ℚ) (temp_f humidity wind_mph : ℚ) :
    (temp_f ≥ 80 ∧ humidity ≥ 40 →
      calculate_feels_like sqrtF pow016F expF temp_f humidity wind_mph
        = heat_index sqrtF temp_f humidity)
    ∧ (¬(temp_f ≥ 80 ∧ humidity ≥ 40) → temp_f ≤ 50 ∧ wind_mph ≥ 3 →
      calculate_feels_like sqrtF pow016F expF temp_f humidity wind_mph
        = wind_chill pow016F temp_f wind_mph)
    ∧ (¬(temp_f ≥ 80 ∧ humidity ≥ 40) → ¬(temp_f ≤ 50 ∧ wind_mph ≥ 3) →
      calculate_feels_like sqrtF pow016F expF temp_f humidity wind_mph
        = apparent_temperature expF ((temp_f - 32) * 5/9) humidity (wind_mph * 0.44704)) :=
  ⟨fun h => feels_like_eq_heat sqrtF pow016F expF temp_f humidity wind_mph h.1 h.2,
   fun hno h => feels_like_eq_wind sqrtF pow016F expF temp_f humidity wind_mph hno h.1 h.2,
   fun hno1 hno2 => feels_like_eq_apparent sqrtF pow016F expF temp_f humidity wind_mph hno1 hno2⟩

/-- Witness for the C4 theorem at the three regimes (82, 45, 0), (40, 50, 5)
and (70, 50, 0). -/
theorem feels_like_dispatch_witness :
    calculate_feels_like zeroFn zeroFn zeroFn 82 45 0 = heat_index zeroFn 82 45
    ∧ calculate_feels_like zeroFn zeroFn zeroFn 40 50 5 = wind_chill zeroFn 40 5
    ∧ calculate_feels_like zeroFn zeroFn zeroFn 70 50 0
        = apparent_temperature zeroFn ((70 - 32) * 5/9) 50 (0 * 0.44704) :=
  ⟨(feels_like_dispatch zeroFn zeroFn zeroFn 82 45 0).1 (by norm_num),
   (feels_like_dispatch zeroFn zeroFn zeroFn 40 50 5).2.1 (by norm_num) (by norm_num),
   (feels_like_dispatch zeroFn zeroFn zeroFn 70 50 0).2.2 (by norm_num) (by norm_num)⟩

lemma heat_index_at_82_45 (sqrtF : ℚ → ℚ) : heat_index sqrtF 82 45 = 821/10 := by
  have h1 : ¬((45:ℚ) < 13 ∧ (80:ℚ) ≤ 82 ∧ (82:ℚ) ≤ 112) := by norm_num
  have h2 : ¬((45:ℚ) > 85 ∧ (80:ℚ) ≤ 82 ∧ (82:ℚ) ≤ 87) := by norm_num
  unfold heat_index
  rw [if_neg (by norm_num)]
  simp only [if_neg h1, if_neg h2]
  decide

/-- Claim C8 (amended): for every temp_f >= 80 and humidity >= 40 the
dispatch routes to the heat index, and at (82, 45, 0) the result is at
least 82; the heat index is not bounded below by the actual temperature on
all of the regime (it rounds to 79.9 at the corner (80, 40)). -/
theorem feels_like_heat_floor :
    (∀ (sqrtF pow016F expF : ℚ → ℚ) (temp_f humidity wind_mph : ℚ),
      temp_f ≥ 80 → humidity ≥ 40 →
      calculate_feels_like sqrtF pow016F expF temp_f humidity wind_mph
        = heat_index sqrtF temp_f humidity)
    ∧ (∀ sqrtF pow016F expF : ℚ → ℚ,
        82 ≤ calculate_feels_like sqrtF pow016F expF 82 45 0) := by
  constructor
  · exact fun a b c t h w h1 h2 => feels_like_eq_heat a b c t h w h1 h2
  · intro a b c
    rw [feels_like_eq_heat a b c 82 45 0 (by norm_num) (by norm_num), heat_index_at_82_45]
    norm_num

/-- Counterexample for C8 as stated: at temp_f = 80, humidity = 40 the
dispatch routes to the heat index and the result 79.9 is strictly below
the actual temperature. -/
theorem feels_like_80_40_below_temp :
    calculate_feels_like zeroFn zeroFn zeroFn 80 40 0 = 799/10 ∧ (799/10 : ℚ) < 80 := by
  constructor
  · decide
  · norm_num

/-- Witness for the C8 theorem at (82, 45, 0). -/
theorem feels_like_heat_floor_witness :
    calculate_feels_like zeroFn zeroFn zeroFn 82 45 0 = heat_index zeroFn 82 45
    ∧ 82 ≤ calculate_feels_like zeroFn zeroFn zeroFn 82 45 0 :=
  ⟨feels_like_heat_floor.1 zeroFn zeroFn zeroFn 82 45 0 (by norm_num) (by norm_num),
   feels_like_heat_floor.2 zeroFn zeroFn zeroFn⟩

/-- Claim C3 (amended): temperature and humidity trends return
InsufficientData below 2 readings; the station pressure trend returns its
insufficient results below 2 total readings or below 6 pressure-bearing
readings in the lookback; the dashboard pressure trend requires only 2
pressure-bearing readings. -/
theorem trend_insufficient_thresholds :
    (∀ rs : List Reading, rs.length < 2 → get_temperature_trend rs = .insufficient)
    ∧ (∀ rs : List Reading, rs.length < 2 → get_humidity_trend rs = .insufficient)
    ∧ (∀ (rs : List Reading) (now hours : ℚ), rs.length < 2 →
        get_pressure_trend_station rs now hours = .insufficientData)
    ∧ (∀ (rs : List Reading) (now hours : ℚ), 2 ≤ rs.length →
        (stationRecent rs now hours).length < 6 →
        get_pressure_trend_station rs now hours = .insufficientPressure)
    ∧ (∀ rs : List Reading, (rs.filter (fun r => r.pressure_hpa.isSome)).length < 2 →
        get_pressure_trend_mb rs = .insufficientPressure) := by
  refine ⟨fun rs h => ?_, fun rs h => ?_, fun rs now hours h => ?_,
    fun rs now hours h2 h6 => ?_, fun rs h => ?_⟩
  · unfold get_temperature_trend; rw [if_pos h]
  · unfold get_humidity_trend; rw [if_pos h]
  · unfold get_pressure_trend_station; rw [if_pos h]
  · unfold get_pressure_trend_station
    rw [if_neg (by omega)]
    simp only [if_pos h6]
  · unfold get_pressure_trend_mb
    simp only [if_pos h]

/-- Counterexample for C3 as stated: the dashboard pressure trend on a
window of only 3 pressure-bearing readings produces a real trend instead of
the insufficient-pressure result. -/
theorem pressure_trend_mb_fires_below_six :
    get_pressure_trend_mb
        [⟨0, 70, 50, some 1000⟩, ⟨30, 70, 50, some 1001⟩, ⟨60, 70, 50, some 1005⟩]
      = .risingRapidly 5 5
    ∧ (([⟨0, 70, 50, some 1000⟩, ⟨30, 70, 50, some 1001⟩, ⟨60, 70, 50, some 1005⟩] :
        List Reading).filter (fun r => r.pressure_hpa.isSome)).length = 3 :=
  ⟨by decide, by decide⟩

/-- Witness for the C3 theorem: every conjunct applied at a concrete
window. -/
theorem trend_insufficient_thresholds_witness :
    get_temperature_trend [] = .insufficient
    ∧ get_humidity_trend [⟨0, 70, 50, none⟩] = .insufficient
    ∧ get_pressure_trend_station [] 0 3 = .insufficientData
    ∧ get_pressure_trend_station [⟨0, 70, 50, some 1000⟩, ⟨30, 70, 50, some 1001⟩] 60 3
        = .insufficientPressure
    ∧ get_pressure_trend_mb [⟨0, 70, 50, some 1000⟩] = .insufficientPressure :=
  ⟨trend_insufficient_thresholds.1 [] (by decide),
   trend_insufficient_thresholds.2.1 [⟨0, 70, 50, none⟩] (by decide),
   trend_insufficient_thresholds.2.2.1 [] 0 3 (by decide),
   trend_insufficient_thresholds.2.2.2.1 [⟨0, 70, 50, some 1000⟩, ⟨30, 70, 50, some 1001⟩]
     60 3 (by decide) (by decide),
   trend_insufficient_thresholds.2.2.2.2 [⟨0, 70, 50, some 1000⟩] (by decide)⟩

/-- Claim C2 (amended): with at least 2 readings, at least 6
pressure-bearing readings in the lookback, and non-zero windowed means, the
station pressure trend classifies the difference of the two 30-minute
windowed means centered 15 minutes inside the ends of the span, with the
hourly rate over the distance of the window centers floored at 0.1 hour,
into the shared 5 bands; the dashboard implementation instead uses the raw
endpoint difference (see the counterexample). -/
theorem pressure_trend_station_windowed
    (rs recent : List Reading) (now hours : ℚ) (r0 rl : Reading) (p0 p1 : ℚ)
    (hlen : 2 ≤ rs.length)
    (hrec : stationRecent rs now hours = recent)
    (h6 : 6 ≤ recent.length)
    (hhd : recent.head? = some r0)
    (hlst : recent.getLast? = some rl)
    (hw0 : window_mean recent (r0.timestamp + 15) = some p0) (hp0 : p0 ≠ 0)
    (hw1 : window_mean recent (rl.timestamp - 15) = some p1) (hp1 : p1 ≠ 0) :
    get_pressure_trend_station rs now hours =
      pressureBand (p1 - p0)
        ((p1 - p0) / max ((rl.timestamp - 15 - (r0.timestamp + 15)) / 60) (1/10)) := by
  unfold get_pressure_trend_station
  rw [if_neg (by omega)]
  simp only [hrec]
  rw [if_neg (by omega)]
  rw [hhd, hlst]
  simp only [py_or, hw0, hw1]
  rw [if_neg hp0, if_neg hp1]

/-- Counterexample for C2 as stated: on the same 6-reading window the
dashboard pressure trend reports a stable zero change (raw endpoints) while
the windowed-mean computation of the claim yields a rising-rapidly change
of 20/3 hPa. -/
theorem pressure_trend_mb_not_windowed :
    get_pressure_trend_mb
        [⟨0, 70, 50, some 1000⟩, ⟨10, 70, 50, some 1000⟩, ⟨20, 70, 50, some 1000⟩,
         ⟨160, 70, 50, some 1010⟩, ⟨170, 70, 50, some 1010⟩, ⟨180, 70, 50, some 1000⟩]
      = .stable 0
    ∧ get_pressure_trend_station
        [⟨0, 70, 50, some 1000⟩, ⟨10, 70, 50, some 1000⟩, ⟨20, 70, 50, some 1000⟩,
         ⟨160, 70, 50, some 1010⟩, ⟨170, 70, 50, some 1010⟩, ⟨180, 70, 50, some 1000⟩]
        180 4
      = .risingRapidly (20/3) (8/3)
    ∧ PTrend.stable 0 ≠ .risingRapidly (20/3) (8/3) :=
  ⟨by decide, by decide, by decide⟩

/-- Witness for the C2 theorem on a concrete 6-reading window. -/
theorem pressure_trend_station_windowed_witness :
    get_pressure_trend_station
        [⟨0, 70, 50, some 1000⟩, ⟨10, 70, 50, some 1000⟩, ⟨20, 70, 50, some 1000⟩,
         ⟨160, 70, 50, some 1010⟩, ⟨170, 70, 50, some 1010⟩, ⟨180, 70, 50, some 1000⟩]
        180 4
      = pressureBand (3020/3 - 1000)
          ((3020/3 - 1000) /
            max (((⟨180, 70, 50, some 1000⟩ : Reading).timestamp - 15
              - ((⟨0, 70, 50, some 1000⟩ : Reading).timestamp + 15)) / 60) (1/10)) :=
  pressure_trend_station_windowed
    [⟨0, 70, 50, some 1000⟩, ⟨10, 70, 50, some 1000⟩, ⟨20, 70, 50, some 1000⟩,
     ⟨160, 70, 50, some 1010⟩, ⟨170, 70, 50, some 1010⟩, ⟨180, 70, 50, some 1000⟩]
    [⟨0, 70, 50, some 1000⟩, ⟨10, 70, 50, some 1000⟩, ⟨20, 70, 50, some 1000⟩,
     ⟨160, 70, 50, some 1010⟩, ⟨170, 70, 50, some 1010⟩, ⟨180, 70, 50, some 1000⟩]
    180 4 ⟨0, 70, 50, some 1000⟩ ⟨180, 70, 50, some 1000⟩ 1000 (3020/3)
    (by decide) (by decide) (by decide) (by decide) (by decide)
    (by decide) (by norm_num) (by decide) (by norm_num)

/-- Claim C9 (amended): both summarizers return None on an empty window and
take temperature and humidity ranges over all readings; the station
summarizer computes its pressure fields only over pressures within
[800, 1100] (values exceeding 1100 excluded), while the InfluxDB summarizer
computes them over every present pressure with no range filter. -/
theorem daily_summary_fields :
    (get_daily_summary_station [] = none)
    ∧ (∀ sqrtF pow016F expF : ℚ → ℚ, get_daily_summary_influx sqrtF pow016F expF [] = none)
    ∧ (∀ (rs : List Reading) (s : DailySummary), get_daily_summary_station rs = some s →
        s.temp_high = list_max (rs.map (fun r => r.temperature_f))
        ∧ s.temp_low = list_min (rs.map (fun r => r.temperature_f))
        ∧ s.humidity_high = list_max (rs.map (fun r => r.humidity))
        ∧ s.humidity_low = list_min (rs.map (fun r => r.humidity))
        ∧ s.pressure_high = list_max (station_pressures rs)
        ∧ s.pressure_low = list_min (station_pressures rs)
        ∧ s.pressure_current = (station_pressures rs).getLast?)
    ∧ (∀ (sqrtF pow016F expF : ℚ → ℚ) (rs : List Reading) (s : DailySummary),
        get_daily_summary_influx sqrtF pow016F expF rs = some s →
        s.temp_high = list_max (rs.map (fun r => r.temperature_f))
        ∧ s.temp_low = list_min (rs.map (fun r => r.temperature_f))
        ∧ s.humidity_high = list_max (rs.map (fun r => r.humidity))
        ∧ s.humidity_low = list_min (rs.map (fun r => r.humidity))
        ∧ s.pressure_high = list_max (rs.filterMap (fun r => r.pressure_hpa))
        ∧ s.pressure_low = list_min (rs.filterMap (fun r => r.pressure_hpa))
        ∧ s.pressure_current = (rs.filterMap (fun r => r.pressure_hpa)).getLast?) := by
  refine ⟨rfl, fun _ _ _ => rfl, fun rs s hs => ?_, fun sqrtF pow016F expF rs s hs => ?_⟩
  · cases rs with
    | nil => exact absurd hs (by simp [get_daily_summary_station])
    | cons a l =>
      simp only [get_daily_summary_station] at hs
      injection hs with hs
      subst hs
      exact ⟨rfl, rfl, rfl, rfl, rfl, rfl, rfl⟩
  · cases rs with
    | nil => exact absurd hs (by simp [get_daily_summary_influx])
    | cons a l =>
      simp only [get_daily_summary_influx] at hs
      injection hs with hs
      subst hs
      exact ⟨rfl, rfl, rfl, rfl, rfl, rfl, rfl⟩

/-- Counterexample for C9 as stated: the InfluxDB summarizer reports an
out-of-range pressure of 1150 hPa as the pressure high. -/
theorem daily_summary_influx_keeps_out_of_range :
    (get_daily_summary_influx zeroFn zeroFn zeroFn
        [⟨0, 70, 50, some 1015⟩, ⟨10, 71, 51, some 1150⟩, ⟨20, 72, 52, some 1018⟩]).map
      (fun s => s.pressure_high) = some (some 1150)
    ∧ ¬((1150:ℚ) ≤ 1100) :=
  ⟨by decide, by norm_num⟩

/-- Witness for the C9 theorem on a concrete 3-reading window with an
out-of-range pressure. -/
theorem daily_summary_fields_witness :
    get_daily_summary_station [] = none
    ∧ get_daily_summary_influx zeroFn zeroFn zeroFn [] = none
    ∧ (⟨some 72, some 70, some 52, some 50, some 1018, some 1015, some 1018,
        none, none, 3⟩ : DailySummary).pressure_high
      = list_max (station_pressures
          [⟨0, 70, 50, some 1015⟩, ⟨10, 71, 51, some 1150⟩, ⟨20, 72, 52, some 1018⟩])
    ∧ (⟨some 72, some 70, some 52, some 50, some 1150, some 1015, some 1018,
        some (324/5), some (314/5), 3⟩ : DailySummary).pressure_high
      = list_max
          (([⟨0, 70, 50, some 1015⟩, ⟨10, 71, 51, some 1150⟩, ⟨20, 72, 52, some 1018⟩] :
            List Reading).filterMap (fun r => r.pressure_hpa)) :=
  ⟨daily_summary_fields.1,
   daily_summary_fields.2.1 zeroFn zeroFn zeroFn,
   (daily_summary_fields.2.2.1
      [⟨0, 70, 50, some 1015⟩, ⟨10, 71, 51, some 1150⟩, ⟨20, 72, 52, some 1018⟩]
      ⟨some 72, some 70, some 52, some 50, some 1018, some 1015, some 1018, none, none, 3⟩
      (by decide)).2.2.2.2.1,
   (daily_summary_fields.2.2.2 zeroFn zeroFn zeroFn
      [⟨0, 70, 50, some 1015⟩, ⟨10, 71, 51, some 1150⟩, ⟨20, 72, 52, some 1018⟩]
      ⟨some 72, some 70, some 52, some 50, some 1150, some 1015, some 1018,
        some (324/5), some (314/5), 3⟩
      (by decide)).2.2.2.2.1⟩

/-- Claim C5 (amended): the pressure-band chain appends at most one band
message, exactly one when pressure < 1010 or pressure > 1020 and none when
1010 <= pressure <= 1020, evaluated in order with the first match winning. -/
theorem pressure_band_at_most_one (p h r : ℚ) :
    (pressure_band_rules p h r).length ≤ 1
    ∧ (pressure_band_rules p h r = [] ↔ 1010 ≤ p ∧ p ≤ 1020)
    ∧ (p < 980 → pressure_band_rules p h r = [(.majorStorm, .storm, 95)])
    ∧ (¬p < 980 → p < 995 ∧ r < -2 →
        pressure_band_rules p h r = [(.intensifyingStorm, .storm, 85)])
    ∧ (¬p < 980 → ¬(p < 995 ∧ r < -2) → p < 1000 →
        pressure_band_rules p h r = [(.rainLikely, .rain, 75)])
    ∧ (¬p < 980 → ¬(p < 995 ∧ r < -2) → ¬p < 1000 → p < 1010 →
        pressure_band_rules p h r
          = if h > 70 then [(.unsettled, .rain, 60)] else [(.cloudy, .clouds, 70)])
    ∧ (1010 ≤ p → p > 1030 → pressure_band_rules p h r = [(.clearSkies, .clear, 90)])
    ∧ (1010 ≤ p → ¬p > 1030 → p > 1020 →
        pressure_band_rules p h r = [(.fairWeather, .fair, 80)]) := by
  refine ⟨?_, ?_, fun h1 => ?_, fun h1 h2 => ?_, fun h1 h2 h3 => ?_, fun h1 h2 h3 h4 => ?_,
    fun hge h5 => ?_, fun hge h5 h6 => ?_⟩
  · unfold pressure_band_rules; split_ifs <;> simp
  · unfold pressure_band_rules
    split_ifs <;>
      first
        | exact iff_of_false (by simp) (by rintro ⟨ha, hb⟩; linarith)
        | exact iff_of_true rfl ⟨by linarith, by linarith⟩
  · unfold pressure_band_rules; rw [if_pos h1]
  · unfold pressure_band_rules; rw [if_neg h1, if_pos h2]
  · unfold pressure_band_rules; rw [if_neg h1, if_neg h2, if_pos h3]
  · unfold pressure_band_rules; rw [if_neg h1, if_neg h2, if_neg h3, if_pos h4]
  · unfold pressure_band_rules
    rw [if_neg (by linarith), if_neg (by rintro ⟨ha, hb⟩; linarith), if_neg (by linarith),
      if_neg (by linarith), if_pos h5]
  · unfold pressure_band_rules
    rw [if_neg (by linarith), if_neg (by rintro ⟨ha, hb⟩; linarith), if_neg (by linarith),
      if_neg (by linarith), if_neg h5, if_pos h6]

/-- Counterexample for C5 as stated: a predict_weather call with pressure
1015 hPa present appends none of the pressure-band messages (the band chain
has no arm for 1010 to 1020). -/
theorem predict_weather_band_gap :
    predict_weather zeroFn ⟨some ⟨some 70, some 50, some 1015⟩, [], [], [], [], 12, 6⟩
      = .ok ⟨[.perfectComfort], [], none⟩
    ∧ pressure_band_rules 1015 50 (pressure_change_rate_of (some 1015) []) = [] :=
  ⟨rfl, by decide⟩

/-- Witness for the C5 theorem in the low-pressure band. -/
theorem pressure_band_at_most_one_witness :
    pressure_band_rules 990 50 0 = [(.rainLikely, .rain, 75)] :=
  (pressure_band_at_most_one 990 50 0).2.2.2.2.1 (by norm_num) (by norm_num) (by norm_num)

lemma fog_probability_of_eq (spread humidity : ℚ) (pressure : Option ℚ)
    (season : Season) (time_period : TimePeriod) (temp_f : ℚ) (pstable hrisrap : Bool) :
    fog_probability_of spread humidity pressure season time_period temp_f pstable hrisrap
      = min (fog_raw_score spread humidity pressure season time_period temp_f pstable hrisrap
          * fogSeasonalProbability season time_period
          * (if season = .summer ∧ (time_period = .midday ∨ time_period = .evening)
             then 0.1 else 1)) 95 := by
  unfold fog_probability_of
  split_ifs with hc
  · rfl
  · rw [mul_one]

/-- Claim C6: whenever predict_fog returns a prediction, its probability is
the raw additive score multiplied by the seasonal base-rate fraction and
multiplied again by 0.1 in summer midday/evening, capped so that it never
exceeds 95; and it is at least 20 (a probability below 20 returns none). -/
theorem predict_fog_probability_spec (logF : ℚ → ℚ) (cd : CurrentData) (hour month : ℕ)
    (recent1h recent6h : List Reading) (dpf : ℚ) (fp : FogPrediction)
    (hdew : magnus_dew_point_f logF ((cd.temperature_f.getD 0 - 32) * 5/9)
        (cd.humidity.getD 0) = .ok dpf)
    (hfog : predict_fog logF (some cd) hour month recent1h recent6h = .ok (some fp)) :
    fp.probability =
      min (fog_raw_score (cd.temperature_f.getD 0 - dpf) (cd.humidity.getD 0) cd.pressure_hpa
            (seasonOf month) (timePeriodOf hour) (cd.temperature_f.getD 0)
            (pyTruthy cd.pressure_hpa && isStableP (get_pressure_trend_mb recent1h))
            (isRisingRapidlyT (get_humidity_trend recent6h))
          * fogSeasonalProbability (seasonOf month) (timePeriodOf hour)
          * (if seasonOf month = .summer
              ∧ (timePeriodOf hour = .midday ∨ timePeriodOf hour = .evening)
             then 0.1 else 1)) 95
    ∧ fp.probability ≤ 95 ∧ 20 ≤ fp.probability := by
  simp only [predict_fog] at hfog
  rw [hdew] at hfog
  simp only [] at hfog
  split_ifs at hfog with h70 h40 h20
  · injection hfog with h; injection h with h; subst h
    refine ⟨fog_probability_of_eq _ _ _ _ _ _ _ _, ?_, by linarith⟩
    rw [fog_probability_of_eq]; exact min_le_right _ _
  · injection hfog with h; injection h with h; subst h
    refine ⟨fog_probability_of_eq _ _ _ _ _ _ _ _, ?_, by linarith⟩
    rw [fog_probability_of_eq]; exact min_le_right _ _
  · injection hfog with h; injection h with h; subst h
    refine ⟨fog_probability_of_eq _ _ _ _ _ _ _ _, ?_, by linarith⟩
    rw [fog_probability_of_eq]; exact min_le_right _ _
  · exact absurd hfog (by simp)

/-- Witness for the C6 theorem: a winter morning reading (40 F, 96 percent,
1020 hPa) yielding a 27 percent fog prediction. -/
theorem predict_fog_probability_spec_witness :
    (27 : ℚ) = min (fog_raw_score 0 96 (some 1020) .winter .morning 40 false false
          * fogSeasonalProbability .winter .morning
          * (if Season.winter = .summer
              ∧ (TimePeriod.morning = .midday ∨ TimePeriod.morning = .evening)
             then 0.1 else 1)) 95
    ∧ (27 : ℚ) ≤ 95 ∧ (20 : ℚ) ≤ 27 :=
  predict_fog_probability_spec zeroFn ⟨some 40, some 96, some 1020⟩ 7 1 [] []
    40 ⟨27, .possible⟩ rfl rfl

lemma split_signals_fst (scores : List (SignalKey × ℚ)) :
    (split_signals scores).1
      = (scores.filter (fun p => isSevereKey p.1 && decide (75 ≤ p.2))).map
          (fun p => p.2 / 100) := by
  induction scores with
  | nil => rfl
  | cons hd tl ih =>
    obtain ⟨k, c⟩ := hd
    simp only [split_signals, List.filter_cons]
    by_cases h : isSevereKey k = true ∧ 75 ≤ c
    · have hb : (isSevereKey k && decide (75 ≤ c)) = true := by
        simp only [Bool.and_eq_true, decide_eq_true_eq]
        exact h
      rw [if_pos h, hb]
      simp only [if_true, List.map_cons, List.cons.injEq]
      exact ⟨trivial, ih⟩
    · have hb : ¬(isSevereKey k && decide (75 ≤ c)) = true := by
        simp only [Bool.and_eq_true, decide_eq_true_eq]
        exact h
      rw [if_neg h, if_neg hb]
      by_cases h50 : (50:ℚ) ≤ c
      · rw [if_pos h50]
        simpa using ih
      · rw [if_neg h50]
        simpa using ih

lemma combined_confidence_severe (scores : List (SignalKey × ℚ))
    (hs : (split_signals scores).1 ≠ []) :
    combined_confidence scores
      = max ((1 - ((split_signals scores).1.map (fun p => 1 - p)).prod) * 100) 75 := by
  unfold combined_confidence
  simp only []
  rw [if_pos hs]

lemma assemble_scores (base : List Msg) (core : List (Msg × SignalKey × ℚ))
    (comfort : List Msg) (fallback : Msg) :
    (assemble base core comfort fallback).scores = core.map (fun x => x.2) := rfl

lemma assemble_final_of_ne (base : List Msg) (core : List (Msg × SignalKey × ℚ))
    (comfort : List Msg) (fallback : Msg) (hc : core ≠ []) :
    (assemble base core comfort fallback).final
      = some (combined_confidence (core.map (fun x => x.2))) := by
  have h2 : core.map (fun x => x.2) ≠ [] := fun he => hc (List.map_eq_nil_iff.mp he)
  have h1 : base ++ core.map (fun x => x.1) ≠ [] := by
    intro he
    exact hc (List.map_eq_nil_iff.mp (List.append_eq_nil.mp he).2)
  unfold assemble
  simp only []
  rw [if_pos ⟨h1, h2⟩]

/-- Claim C1: whenever a predict_weather pass fired at least one severe
signal (key storm, thunderstorm, deteriorating or storm_clearing with
confidence at least 75), the final headline confidence equals
max (100 (1 - prod (1 - p_i / 100)), 75) over exactly those severe signals,
routine signals excluded. -/
theorem predict_weather_severe_confidence (logF : ℚ → ℚ) (ctx : WeatherCtx)
    (pr : PredictResult)
    (hok : predict_weather logF ctx = .ok pr)
    (hsev : pr.scores.filter (fun p => isSevereKey p.1 && decide (75 ≤ p.2)) ≠ []) :
    pr.final = some (max (100 * (1 -
        ((pr.scores.filter (fun p => isSevereKey p.1 && decide (75 ≤ p.2))).map
          (fun p => 1 - p.2 / 100)).prod)) 75) := by
  cases hc : ctx.current with
  | none =>
    simp only [predict_weather, hc] at hok
    injection hok with hok
    subst hok
    simp at hsev
  | some cd =>
    simp only [predict_weather, hc] at hok
    cases hfog : predict_fog logF (some cd) ctx.hour ctx.month ctx.recent1h ctx.recent6h with
    | error e =>
      rw [hfog] at hok
      exact absurd hok (by simp)
    | ok fogp =>
      rw [hfog] at hok
      injection hok with hok
      subst hok
      have hsc : (predict_weather_core logF ctx cd fogp).scores
          = (forecast_core logF ctx cd fogp).map (fun x => x.2) := rfl
      have hcne : forecast_core logF ctx cd fogp ≠ [] := by
        intro he
        apply hsev
        rw [hsc, he]
        rfl
      have hfin : (predict_weather_core logF ctx cd fogp).final
          = some (combined_confidence
              ((forecast_core logF ctx cd fogp).map (fun x => x.2))) := by
        unfold predict_weather_core
        simp only []
        exact assemble_final_of_ne _ _ _ _ hcne
      rw [hfin]
      rw [combined_confidence_severe _ (by
        rw [split_signals_fst]
        intro he
        apply hsev
        rw [hsc]
        exact List.map_eq_nil_iff.mp he)]
      rw [split_signals_fst, List.map_map]
      rw [hsc]
      congr 1
      rw [mul_comm]
      rfl

/-- Witness for the C1 theorem: a pass with pressure 970 hPa fires the
severe major-storm signal with confidence 95, and the headline confidence
is the noisy-OR floor formula over it. -/
theorem predict_weather_severe_confidence_witness :
    (⟨[.highConfidence, .majorStorm], [(.storm, 95)], some 95⟩ : PredictResult).final
      = some (max (100 * (1 -
          (([((SignalKey.storm : SignalKey), (95:ℚ))].filter
              (fun p => isSevereKey p.1 && decide (75 ≤ p.2))).map
            (fun p => 1 - p.2 / 100)).prod)) 75) :=
  predict_weather_severe_confidence zeroFn
    ⟨some ⟨some 70, some 50, some 970⟩, [], [], [], [], 12, 6⟩
    ⟨[.highConfidence, .majorStorm], [(.storm, 95)], some 95⟩
    rfl (by decide)

/-- Claim C7 evaluation: predict_weather on a current reading whose
humidity is missing (so the dictionary default 0 is used) propagates the
error raised by the unguarded logarithm inside predict_fog, for every
logarithm primitive. -/
theorem predict_weather_zero_humidity_raises :
    ∀ logF : ℚ → ℚ,
      predict_weather logF ⟨some ⟨some 70, none, none⟩, [], [], [], [], 12, 6⟩
        = .error () :=
  fun _ => rfl

end SemiEval
